import Mathlib

/-!
Shallow embedding of `src/Benchmarks/benchmark.py` (OpenGL Polar Sphere Benchmark).

Conventions of the embedding:
* Python floats are modelled as real numbers (`ℝ`); density knobs, which only
  feed integer truncations and comparisons, are modelled as rationals (`ℚ`) so
  that point counts stay computable.
* `int(x)` (truncation toward zero) is `pyInt`; `random.uniform(a, b)` is
  `pyUniform a b u` where `u` is the next draw of an abstract random stream
  `u : ℕ → ℝ` with draws in `[0, 1)`, exactly CPython's `a + (b-a)*random()`.
* `time.time()` calls are an abstract stream `t : ℕ → ℝ`, consumed in call order.
* Stateful rendering / event-loop code is embedded as a step relation over
  per-density outcomes (see `DensityOutcome`), mirroring the control flow of
  `benchmark_pattern` / `run_benchmark` line by line.
-/

set_option maxHeartbeats 1000000
set_option linter.unusedVariables false

/-- Python `int(x)` for a rational `x`: truncation toward zero. -/
def pyInt (x : ℚ) : ℤ := if 0 ≤ x then ⌊x⌋ else -⌊-x⌋

/-- `int(x)` used as a loop bound: `range(n)` with a negative `n` is empty,
so the natural-number clamp is the faithful loop-iteration count. -/
def pyIntNat (x : ℚ) : ℕ := (pyInt x).toNat

/-- CPython's `random.uniform(a, b) = a + (b-a) * random()`. -/
noncomputable def pyUniform (a b u : ℝ) : ℝ := a + (b - a) * u

theorem pyInt_of_nonneg {x : ℚ} (h : 0 ≤ x) : pyInt x = ⌊x⌋ := if_pos h

theorem pyIntNat_cast {x : ℚ} (h : 0 ≤ x) : (pyIntNat x : ℤ) = pyInt x := by
  rw [pyIntNat, Int.toNat_of_nonneg]
  rw [pyInt_of_nonneg h]
  exact Int.floor_nonneg.mpr h

theorem pyUniform_mem {a b u : ℝ} (hab : a < b) (h0 : 0 ≤ u) (h1 : u < 1) :
    a ≤ pyUniform a b u ∧ pyUniform a b u < b := by
  unfold pyUniform
  constructor
  · nlinarith
  · nlinarith

/-- A point `[x, y, z]` of the benchmark, with real coordinates. -/
structure Vec3 where
  x : ℝ
  y : ℝ
  z : ℝ

/-- A color `[r, g, b, a]` of the benchmark. -/
structure Col4 where
  r : ℝ
  g : ℝ
  b : ℝ
  a : ℝ

/-- `self.points` paired with `self.colors` of a pattern generator. -/
structure PointField where
  points : List Vec3
  colors : List Col4

/-- Euclidean magnitude of a point, as computed by the source
(`math.sqrt(x**2 + y**2 + z**2)`). -/
noncomputable def norm3 (p : Vec3) : ℝ := Real.sqrt (p.x ^ 2 + p.y ^ 2 + p.z ^ 2)

/-- A spherical-to-Cartesian conversion lands exactly on the unit sphere. -/
theorem norm3_spherical (theta phi : ℝ) :
    norm3 ⟨Real.sin phi * Real.cos theta, Real.sin phi * Real.sin theta, Real.cos phi⟩ = 1 := by
  have h1 := Real.sin_sq_add_cos_sq theta
  have h2 := Real.sin_sq_add_cos_sq phi
  have key : (Real.sin phi * Real.cos theta) ^ 2 + (Real.sin phi * Real.sin theta) ^ 2
      + (Real.cos phi) ^ 2 = 1 := by nlinarith
  show Real.sqrt ((Real.sin phi * Real.cos theta) ^ 2 + (Real.sin phi * Real.sin theta) ^ 2
      + (Real.cos phi) ^ 2) = 1
  rw [key, Real.sqrt_one]

/-- Dividing a vector by its (nonzero) magnitude yields a unit vector. -/
theorem norm3_scaled (q : Vec3) (h : norm3 q ≠ 0) :
    norm3 ⟨q.x / norm3 q, q.y / norm3 q, q.z / norm3 q⟩ = 1 := by
  have hS : 0 ≤ q.x ^ 2 + q.y ^ 2 + q.z ^ 2 := by positivity
  have hsq : norm3 q ^ 2 = q.x ^ 2 + q.y ^ 2 + q.z ^ 2 := Real.sq_sqrt hS
  have expand : (q.x / norm3 q) ^ 2 + (q.y / norm3 q) ^ 2 + (q.z / norm3 q) ^ 2 = 1 := by
    field_simp
    linarith [hsq]
  show Real.sqrt ((q.x / norm3 q) ^ 2 + (q.y / norm3 q) ^ 2 + (q.z / norm3 q) ^ 2) = 1
  rw [expand, Real.sqrt_one]

namespace FibonacciSphere

/-- `n_points = int(density * 10000)` (benchmark.py line 48). -/
def n_points (density : ℚ) : ℕ := pyIntNat (density * 10000)

/-- `golden_ratio = (1 + math.sqrt(5)) / 2` (line 49). -/
noncomputable def golden_ratio : ℝ := (1 + Real.sqrt 5) / 2

/-- Position of point `i` of `n` (lines 52-59). -/
noncomputable def point (np i : ℕ) : Vec3 :=
  let theta : ℝ := 2 * Real.pi * (i : ℝ) / golden_ratio
  let phi : ℝ := Real.arccos (1 - 2 * (i : ℝ) / (np : ℝ))
  ⟨Real.sin phi * Real.cos theta, Real.sin phi * Real.sin theta, Real.cos phi⟩

/-- Color of point `i` (lines 63-68); `tt` is the `time.time()` stream, with
three separate calls per point, indexed in evaluation order. -/
noncomputable def color (tt : ℕ → ℝ) (np i : ℕ) : Col4 :=
  let theta : ℝ := 2 * Real.pi * (i : ℝ) / golden_ratio
  let phi : ℝ := Real.arccos (1 - 2 * (i : ℝ) / (np : ℝ))
  let p := point np i
  ⟨|Real.sin (theta * 3.7 + tt (3 * i) * 0.1)| * (p.x + 1) / 2,
   |Real.cos (phi * 2.3 + tt (3 * i + 1) * 0.15)| * (p.y + 1) / 2,
   |Real.sin ((theta + phi) * 1.9 + tt (3 * i + 2) * 0.05)| * (p.z + 1) / 2,
   0.8 + 0.2 * Real.sin ((i : ℝ) * 0.01)⟩

/-- `FibonacciSphere.generate` (lines 43-68). -/
noncomputable def generate (density : ℚ) (tt : ℕ → ℝ) : PointField :=
  ⟨(List.range (n_points density)).map (point (n_points density)),
   (List.range (n_points density)).map (color tt (n_points density))⟩

end FibonacciSphere

namespace PrimeSpiral

/-- `max_num = int(density * 20000)` (line 89). -/
def max_num (density : ℚ) : ℕ := pyIntNat (density * 20000)

/-- The inline trial-division primality test of `generate` (lines 93-99):
division by every `i` in `range(2, int(math.sqrt(n)) + 1)`. -/
def trial_division (n : ℕ) : Bool :=
  (List.range' 2 (Nat.sqrt n - 1)).all (fun i => n % i != 0)

/-- The `primes` list accumulated over `range(2, max_num)` (lines 90-101). -/
def primes (density : ℚ) : List ℕ :=
  (List.range' 2 (max_num density - 2)).filter trial_division

/-- Position of the rank-`i` prime `p` (lines 104-114). -/
noncomputable def point (mn np i p : ℕ) : Vec3 :=
  let t : ℝ := (p : ℝ) / (mn : ℝ) * 50 * Real.pi
  let phi : ℝ := Real.arccos (1 - 2 * ((i : ℝ) / (np : ℝ)))
  let offset_x : ℝ := Real.sin ((p : ℝ) * 0.001) * 0.1
  let offset_y : ℝ := Real.cos ((p : ℝ) * 0.0007) * 0.1
  ⟨Real.sin phi * Real.cos t + offset_x, Real.sin phi * Real.sin t + offset_y, Real.cos phi⟩

/-- Color of the rank-`i` prime `p` (lines 119-122). -/
noncomputable def color (mn np i p : ℕ) : Col4 :=
  let intensity : ℝ := Real.log (p : ℝ) / Real.log (mn : ℝ)
  let hue_shift : ℝ := Real.sin ((p : ℝ) * 0.01) * 0.5 + 0.5
  let saturation : ℝ := Real.cos ((i : ℝ) * 0.001) * 0.3 + 0.7
  ⟨intensity * hue_shift, saturation, 1 - intensity, 0.9⟩

/-- `PrimeSpiral.generate` (lines 84-122). -/
noncomputable def generate (density : ℚ) : PointField :=
  ⟨(primes density).enum.map (fun ip => point (max_num density) (primes density).length ip.1 ip.2),
   (primes density).enum.map (fun ip => color (max_num density) (primes density).length ip.1 ip.2)⟩

/-- On integers `≥ 2`, the benchmark's trial division agrees with primality. -/
theorem trial_division_iff {n : ℕ} (h2 : 2 ≤ n) : trial_division n = true ↔ Nat.Prime n := by
  have hsqrt1 : 1 ≤ Nat.sqrt n := by
    have := Nat.sqrt_pos.mpr (by omega : 0 < n)
    omega
  rw [trial_division, List.all_eq_true]
  constructor
  · intro h
    rw [Nat.prime_def_le_sqrt]
    refine ⟨h2, fun m hm hle hdvd => ?_⟩
    have hmem : m ∈ List.range' 2 (Nat.sqrt n - 1) := by
      rw [List.mem_range'_1]
      omega
    have hb := h m hmem
    rw [bne_iff_ne] at hb
    exact hb (Nat.dvd_iff_mod_eq_zero.mp hdvd)
  · intro hp i hi
    rw [List.mem_range'_1] at hi
    rw [bne_iff_ne]
    intro hmod
    have hdvd : i ∣ n := Nat.dvd_iff_mod_eq_zero.mpr hmod
    rcases (Nat.Prime.eq_one_or_self_of_dvd hp i hdvd) with h1 | hn
    · omega
    · have : Nat.sqrt n < n := Nat.sqrt_lt_self (by omega)
      omega

/-- The primes list collects exactly the primes strictly below `max_num`. -/
theorem primes_length (density : ℚ) :
    (primes density).length
      = ((List.range (max_num density)).filter (fun n => decide (Nat.Prime n))).length := by
  have hcongr : (List.range' 2 (max_num density - 2)).filter trial_division
      = (List.range' 2 (max_num density - 2)).filter (fun n => decide (Nat.Prime n)) := by
    apply List.filter_congr
    intro x hx
    rw [List.mem_range'_1] at hx
    exact Bool.eq_iff_iff.mpr (by rw [trial_division_iff hx.1, decide_eq_true_iff])
  rw [primes, hcongr]
  match max_num density with
  | 0 => decide
  | 1 => decide
  | (k + 2) =>
    have h2 : (k + 2) - 2 = k := by omega
    have hsplit : List.range (k + 2) = List.range' 0 2 ++ List.range' 2 k := by
      have hap := List.range'_append 0 2 k 1
      norm_num at hap
      rw [List.range_eq_range']
      exact hap.symm
    rw [h2, hsplit, List.filter_append]
    rw [show List.range' 0 2 = [0, 1] from rfl]
    simp [Nat.not_prime_zero, Nat.not_prime_one]

end PrimeSpiral

namespace MandelbrotSphere

/-- The loop body of `mandelbrot_iterations` (lines 130-136): at each of the
remaining `fuel` iterations, return the current count `n` if `abs(z) > 2`,
otherwise continue with `z*z + c`; when the loop is exhausted the current
count (which then equals `max_iter`) is returned. -/
noncomputable def mandelbrot_go (c : ℂ) : ℂ → ℕ → ℕ → ℕ
  | _, n, 0 => n
  | z, n, fuel + 1 => if 2 < Complex.abs z then n else mandelbrot_go c (z * z + c) (n + 1) fuel

/-- `MandelbrotSphere.mandelbrot_iterations(c, max_iter)` (lines 130-136). -/
noncomputable def mandelbrot_iterations (c : ℂ) (max_iter : ℕ) : ℕ :=
  mandelbrot_go c 0 0 max_iter

/-- `resolution = int(density * 100)` (line 143). -/
def resolution (density : ℚ) : ℕ := pyIntNat (density * 100)

/-- `max_iter = int(density * 50)` (line 144). -/
def max_iter (density : ℚ) : ℕ := pyIntNat (density * 50)

/-- One grid cell of one layer (lines 152-173): the point is kept only when
the sample escapes before `max_iter`. -/
noncomputable def cell_point (res mi layer i j : ℕ) : Option Vec3 :=
  let x : ℝ := ((i : ℝ) / (res : ℝ) - 0.5) * 4
  let y : ℝ := ((j : ℝ) / (res : ℝ) - 0.5) * 4
  let c : ℂ := ⟨x + (layer : ℝ) * 0.1, y + (layer : ℝ) * 0.05⟩
  let iterations := mandelbrot_iterations c mi
  if iterations < mi then
    let theta : ℝ := x * Real.pi * (1 + (layer : ℝ) * 0.2)
    let phi : ℝ := y * Real.pi / 2 + Real.pi / 2
    let distortion : ℝ := Real.sin ((iterations : ℝ) * 0.1) * 0.1
    some ⟨Real.sin phi * Real.cos theta * (1 + distortion),
          Real.sin phi * Real.sin theta * (1 + distortion),
          Real.cos phi + ((layer : ℝ) - 1) * 0.3⟩
  else none

/-- Color of a kept grid cell (lines 176-182). -/
noncomputable def cell_color (res mi layer i j : ℕ) : Option Col4 :=
  let x : ℝ := ((i : ℝ) / (res : ℝ) - 0.5) * 4
  let y : ℝ := ((j : ℝ) / (res : ℝ) - 0.5) * 4
  let c : ℂ := ⟨x + (layer : ℝ) * 0.1, y + (layer : ℝ) * 0.05⟩
  let iterations := mandelbrot_iterations c mi
  if iterations < mi then
    let intensity : ℝ := (iterations : ℝ) / (mi : ℝ)
    let layer_hue : ℝ := (layer : ℝ) / 3
    some ⟨intensity * Real.sin (layer_hue * Real.pi),
          0.3 + layer_hue * 0.4,
          (1 - intensity) * Real.cos (layer_hue * Real.pi),
          0.7 + intensity * 0.3⟩
  else none

/-- `MandelbrotSphere.generate` points (lines 138-173): 3 layers, a
`resolution × resolution` grid per layer. -/
noncomputable def generate_points (density : ℚ) : List Vec3 :=
  (List.range 3).flatMap fun layer =>
    (List.range (resolution density)).flatMap fun i =>
      (List.range (resolution density)).filterMap fun j =>
        cell_point (resolution density) (max_iter density) layer i j

/-- `MandelbrotSphere.generate` colors (lines 138-182). -/
noncomputable def generate_colors (density : ℚ) : List Col4 :=
  (List.range 3).flatMap fun layer =>
    (List.range (resolution density)).flatMap fun i =>
      (List.range (resolution density)).filterMap fun j =>
        cell_color (resolution density) (max_iter density) layer i j

end MandelbrotSphere

namespace LorenzAttractor

/-- One Euler step of attractor `a`'s Lorenz system at iteration `i`
(lines 340-348), with the injected sinusoidal noise on the derivatives;
`dt = 0.005` (line 337). -/
noncomputable def step (s r b : ℝ) (i : ℕ) (p : Vec3) : Vec3 :=
  let dx := s * (p.y - p.x) + Real.sin ((i : ℝ) * 0.001) * 0.1
  let dy := p.x * (r - p.z) - p.y + Real.cos ((i : ℝ) * 0.0007) * 0.1
  let dz := p.x * p.y - b * p.z + Real.sin (p.x * 0.1) * 0.05
  ⟨p.x + dx * 0.005, p.y + dy * 0.005, p.z + dz * 0.005⟩

/-- State of the integrator after `k` steps from the initial condition. -/
noncomputable def state (s r b : ℝ) (p0 : Vec3) : ℕ → Vec3
  | 0 => p0
  | k + 1 => step s r b k (state s r b p0 k)

/-- The noisy position whose magnitude guards the append (lines 350-356). -/
noncomputable def noisy (a i : ℕ) (p : Vec3) : Vec3 :=
  ⟨p.x + Real.sin ((i : ℝ) * 0.01 + (a : ℝ)) * 0.02,
   p.y + Real.cos ((i : ℝ) * 0.013 + (a : ℝ)) * 0.02,
   p.z + Real.sin ((i : ℝ) * 0.007 + (a : ℝ)) * 0.01⟩

/-- The point appended at iteration `i` of attractor `a` (lines 356-362):
the normalized noisy position, skipped when the magnitude is 0. -/
noncomputable def emit_point (a i : ℕ) (p : Vec3) : Option Vec3 :=
  let q := noisy a i p
  let magnitude := norm3 q
  if 0 < magnitude then some ⟨q.x / magnitude, q.y / magnitude, q.z / magnitude⟩ else none

/-- The color appended at iteration `i` of attractor `a` (lines 364-371). -/
noncomputable def emit_color (steps a i : ℕ) (p : Vec3) : Option Col4 :=
  let q := noisy a i p
  let magnitude := norm3 q
  if 0 < magnitude then
    let t : ℝ := (i : ℝ) / (steps : ℝ)
    let attractor_hue : ℝ := (a : ℝ) / 3
    some ⟨|t * Real.sin (attractor_hue * 2 * Real.pi)|,
          |Real.sin (t * Real.pi + attractor_hue * Real.pi)|,
          |(1 - t) * Real.cos (attractor_hue * 3 * Real.pi)|,
          0.6 + 0.4 * Real.sin (t * 4 * Real.pi)⟩
  else none

/-- `steps = int(density * 5000)` (line 338). -/
def steps (density : ℚ) : ℕ := pyIntNat (density * 5000)

/-- Perturbed parameters of attractor `a` (lines 330-333). -/
noncomputable def sigma_of (a : ℕ) : ℝ := 10 + (a : ℝ) * 2

/-- `r = rho + attractor * 5` (line 332). -/
noncomputable def rho_of (a : ℕ) : ℝ := 28 + (a : ℝ) * 5

/-- `b = beta + attractor * 0.5` with `beta = 8/3` (lines 324, 333). -/
noncomputable def beta_of (a : ℕ) : ℝ := 8 / 3 + (a : ℝ) * 0.5

/-- Initial condition of attractor `a` (line 336). -/
noncomputable def init_of (a : ℕ) : Vec3 := ⟨1 + (a : ℝ), 1 - (a : ℝ) * 0.5, 1 + (a : ℝ) * 0.3⟩

/-- Points appended by attractor `a` over its `steps` iterations; the point of
iteration `i` is taken from the state after `i + 1` Euler updates (the update
precedes the append in the loop body). -/
noncomputable def attractor_points (density : ℚ) (a : ℕ) : List Vec3 :=
  (List.range (steps density)).filterMap fun i =>
    emit_point a i (state (sigma_of a) (rho_of a) (beta_of a) (init_of a) (i + 1))

/-- Colors appended by attractor `a`. -/
noncomputable def attractor_colors (density : ℚ) (a : ℕ) : List Col4 :=
  (List.range (steps density)).filterMap fun i =>
    emit_color (steps density) a i (state (sigma_of a) (rho_of a) (beta_of a) (init_of a) (i + 1))

/-- `LorenzAttractor.generate` (lines 317-371): 3 attractor instances run in
sequence. -/
noncomputable def generate (density : ℚ) : PointField :=
  ⟨(List.range 3).flatMap (attractor_points density),
   (List.range 3).flatMap (attractor_colors density)⟩

end LorenzAttractor

/-- The state of `ParticleSystem`: `self.points`, `self.colors`,
`self.velocities`, `self.masses` (lines 184-196). -/
structure ParticleState where
  points : List Vec3
  colors : List Col4
  velocities : List Vec3
  masses : List ℝ

namespace ParticleSystem

/-- `n_particles = int(density * 5000)` (line 198). -/
def n_particles (density : ℚ) : ℕ := pyIntNat (density * 5000)

/-- `theta = random.uniform(0, 2 * math.pi)` for particle `i` (line 203);
each particle consumes six draws of the stream `u`, in evaluation order. -/
noncomputable def theta (u : ℕ → ℝ) (i : ℕ) : ℝ := pyUniform 0 (2 * Real.pi) (u (6 * i))

/-- `phi = random.uniform(0, math.pi)` (line 204). -/
noncomputable def phi (u : ℕ → ℝ) (i : ℕ) : ℝ := pyUniform 0 Real.pi (u (6 * i + 1))

/-- Position of particle `i` (lines 206-210). -/
noncomputable def position (u : ℕ → ℝ) (i : ℕ) : Vec3 :=
  ⟨Real.sin (phi u i) * Real.cos (theta u i),
   Real.sin (phi u i) * Real.sin (theta u i),
   Real.cos (phi u i)⟩

/-- Velocity of particle `i` (lines 212-216). -/
noncomputable def velocity (u : ℕ → ℝ) (i : ℕ) : Vec3 :=
  ⟨pyUniform (-0.01) 0.01 (u (6 * i + 2)),
   pyUniform (-0.01) 0.01 (u (6 * i + 3)),
   pyUniform (-0.01) 0.01 (u (6 * i + 4))⟩

/-- `mass = random.uniform(0.5, 2.0)` (line 219). -/
noncomputable def mass (u : ℕ → ℝ) (i : ℕ) : ℝ := pyUniform 0.5 2 (u (6 * i + 5))

/-- Color of particle `i`, from its mass and position (lines 222-226). -/
noncomputable def color (u : ℕ → ℝ) (i : ℕ) : Col4 :=
  ⟨mass u i / 2,
   |(position u i).z|,
   (|(position u i).x| + |(position u i).y|) / 2,
   0.8⟩

/-- `ParticleSystem.generate` (lines 192-226). -/
noncomputable def generate (density : ℚ) (u : ℕ → ℝ) : ParticleState :=
  ⟨(List.range (n_particles density)).map (position u),
   (List.range (n_particles density)).map (color u),
   (List.range (n_particles density)).map (velocity u),
   (List.range (n_particles density)).map (mass u)⟩

/-- The inner-loop body of the force accumulation (lines 236-263): the force
between pair `(i, j)` is added to slot `i` and subtracted from slot `j`. -/
noncomputable def apply_pair (G : ℝ) (pts : List Vec3) (ms : List ℝ)
    (fs : List Vec3) (i j : ℕ) : List Vec3 :=
  let p1 := pts.getD i ⟨0, 0, 0⟩
  let p2 := pts.getD j ⟨0, 0, 0⟩
  let dx := p2.x - p1.x
  let dy := p2.y - p1.y
  let dz := p2.z - p1.z
  let r := Real.sqrt (dx * dx + dy * dy + dz * dz) + 0.001
  let f := G * ms.getD i 0 * ms.getD j 0 / (r * r)
  let ux := dx / r
  let uy := dy / r
  let uz := dz / r
  let fi := fs.getD i ⟨0, 0, 0⟩
  let fs1 := fs.set i ⟨fi.x + f * ux, fi.y + f * uy, fi.z + f * uz⟩
  let fj := fs1.getD j ⟨0, 0, 0⟩
  fs1.set j ⟨fj.x - f * ux, fj.y - f * uy, fj.z - f * uz⟩

/-- The O(n²) double loop accumulating `forces` (lines 230-263), with
`G = 0.0001`. -/
noncomputable def forces (pts : List Vec3) (ms : List ℝ) : List Vec3 :=
  let n := pts.length
  (List.range n).foldl
    (fun fs i => (List.range' (i + 1) (n - (i + 1))).foldl
      (fun fs j => apply_pair 0.0001 pts ms fs i j) fs)
    (List.replicate n ⟨0, 0, 0⟩)

/-- `velocities[i] += forces[i] / masses[i] * dt` (lines 267-270). -/
noncomputable def new_velocity (dt m : ℝ) (f v : Vec3) : Vec3 :=
  ⟨v.x + f.x / m * dt, v.y + f.y / m * dt, v.z + f.z / m * dt⟩

/-- `points[i] += velocities[i] * dt` with the already-updated velocity
(lines 272-275). -/
noncomputable def raw_position (dt : ℝ) (p v : Vec3) : Vec3 :=
  ⟨p.x + v.x * dt, p.y + v.y * dt, p.z + v.z * dt⟩

/-- Re-normalization onto the sphere surface when the magnitude is positive
(lines 277-282). -/
noncomputable def constrained (q : Vec3) : Vec3 :=
  let mag := norm3 q
  if 0 < mag then ⟨q.x / mag, q.y / mag, q.z / mag⟩ else q

/-- The post-integration (pre-normalization) position of particle `i`. -/
noncomputable def raw_at (s : ParticleState) (dt : ℝ) (i : ℕ) : Vec3 :=
  raw_position dt (s.points.getD i ⟨0, 0, 0⟩)
    (new_velocity dt (s.masses.getD i 0)
      ((forces s.points s.masses).getD i ⟨0, 0, 0⟩)
      (s.velocities.getD i ⟨0, 0, 0⟩))

/-- `ParticleSystem.update_physics(dt)` (lines 228-282): accumulate pairwise
forces, update each velocity then each position, re-normalize positions.
Colors and masses are untouched. -/
noncomputable def update_physics (s : ParticleState) (dt : ℝ) : ParticleState :=
  let n := s.points.length
  { points := (List.range n).map (fun i => constrained (raw_at s dt i)),
    colors := s.colors,
    velocities := (List.range n).map (fun i =>
      new_velocity dt (s.masses.getD i 0)
        ((forces s.points s.masses).getD i ⟨0, 0, 0⟩)
        (s.velocities.getD i ⟨0, 0, 0⟩)),
    masses := s.masses }

end ParticleSystem

/-- One record appended by `BenchmarkResult.add_result` (lines 381-390):
`{density, points, fps, render_time_ms}`. Throughput numbers are rationals
in the embedding. -/
structure BenchmarkRecord where
  density : ℚ
  points : ℕ
  fps : ℚ
  render_time_ms : ℚ
deriving DecidableEq

namespace BenchmarkResult

/-- The per-pattern body of `get_summary` (lines 400-407): for a non-empty
record list, `max(r['fps'] ...)` and `max(r['points'] ...)`; an empty list
contributes no summary line. Python's `max` over a non-empty iterable is a
running fold of the binary max. -/
def summary_entry : List BenchmarkRecord → Option (ℚ × ℕ)
  | [] => none
  | r :: rest =>
    some ((rest.map (fun s => s.fps)).foldl max r.fps,
          (rest.map (fun s => s.points)).foldl max r.points)

end BenchmarkResult

/-- The two rendering strategies of `render_pattern` (lines 499-535):
vertex arrays for large datasets, immediate mode otherwise. -/
inductive RenderMode where
  | vertexArrays
  | immediate
deriving DecidableEq

/-- One sized pass over the point buffer: both branches loop over the point
sizes `[1.0, 2.0, 3.0]` (lines 514 and 522). -/
structure RenderPass where
  size : ℚ
  mode : RenderMode
deriving DecidableEq

namespace OpenGLBenchmark

/-- The fixed point sizes `[1.0, 2.0, 3.0]` used by both branches. -/
def point_sizes : List ℚ := [1, 2, 3]

/-- The branch taken by `render_pattern` on `point_count` (line 502):
`if point_count > 50000`. -/
def render_mode (point_count : ℕ) : RenderMode :=
  if point_count > 50000 then RenderMode.vertexArrays else RenderMode.immediate

/-- The sized passes issued by `render_pattern` (lines 502-535): three
`glDrawArrays` calls in the vertex-array branch, three `glBegin`/`glEnd`
per-point loops in the immediate branch. -/
def render_passes (point_count : ℕ) : List RenderPass :=
  if point_count > 50000 then
    point_sizes.map (fun s => ⟨s, RenderMode.vertexArrays⟩)
  else
    point_sizes.map (fun s => ⟨s, RenderMode.immediate⟩)

/-- What one density level of `benchmark_pattern`'s loop (lines 565-609) does,
abstracting generation and the timed render loop:
* `zeroPoints`: `point_count == 0`, the `continue` at line 578;
* `quitRequested`: a `pygame.QUIT` event, the `return False` at line 589;
* `completed r`: the loop finishes and `add_result` appends `r` (line 609);
* `raised`: an exception escapes the body (caught only in `run_benchmark`). -/
inductive DensityOutcome where
  | zeroPoints
  | quitRequested
  | completed (r : BenchmarkRecord)
  | raised
deriving DecidableEq

/-- How control leaves a pattern's density sweep: normal completion
(`return True`), the quit path (`return False`), or a propagating exception. -/
inductive RunState where
  | finished
  | quit
  | exc
deriving DecidableEq

/-- `benchmark_pattern` (lines 561-611) over the listed density outcomes:
the records appended to `self.result` during this pattern, and how the
call exits. -/
def benchmark_pattern : List DensityOutcome → List BenchmarkRecord × RunState
  | [] => ([], RunState.finished)
  | DensityOutcome.zeroPoints :: rest => benchmark_pattern rest
  | DensityOutcome.quitRequested :: _ => ([], RunState.quit)
  | DensityOutcome.completed r :: rest =>
      ((r :: (benchmark_pattern rest).1), (benchmark_pattern rest).2)
  | DensityOutcome.raised :: _ => ([], RunState.exc)

/-- The pattern loop of `run_benchmark` (lines 625-627): `benchmark_pattern`
returning `False` breaks out of the loop; an exception propagates to the
`except` clause. -/
def run_patterns : List (List DensityOutcome) → List BenchmarkRecord × RunState
  | [] => ([], RunState.finished)
  | p :: rest =>
    match (benchmark_pattern p).2 with
    | RunState.finished =>
        ((benchmark_pattern p).1 ++ (run_patterns rest).1, (run_patterns rest).2)
    | RunState.quit => ((benchmark_pattern p).1, RunState.quit)
    | RunState.exc => ((benchmark_pattern p).1, RunState.exc)

/-- `run_benchmark` (lines 613-647): on normal completion or a quit-driven
break, `save_to_file` writes the accumulated records and the method returns
`True`; on an exception the `except` clause skips the save and returns
`False`. The first component is the saved result file content (`none` when
no file is written). -/
def run_benchmark (outs : List (List DensityOutcome)) :
    Option (List BenchmarkRecord) × Bool :=
  match (run_patterns outs).2 with
  | RunState.exc => (none, false)
  | _ => (some (run_patterns outs).1, true)

/-- `sys.exit(0 if success else 1)` (line 685). -/
def exit_code (success : Bool) : ℕ := if success then 0 else 1

end OpenGLBenchmark

/-- The `ParticleSystem.generate` that is actually bound at runtime: lines
283-309 are indented inside `class ParticleSystem` and re-define `__init__`
and `generate` with a truncated copy of the Lorenz code, shadowing the
particle generator of lines 192-226. The surviving body resets
`self.points`/`self.colors` to empty and its `for attractor in range(3)`
loop only assigns local variables (`s`, `r`, `b`, `x, y, z`, `dt`, `steps`),
so no point is ever appended and `velocities`/`masses` are never created. -/
def ParticleSystem.generate_shadowed (density : ℚ) : PointField :=
  (List.range 3).foldl (fun field attractor => field) ⟨[], []⟩

open OpenGLBenchmark BenchmarkResult

/-- Helper: a left fold of binary `max` bounds every element of the list and
its starting value, and is attained by one of them. -/
theorem foldl_max_spec {α : Type} [LinearOrder α] (x : α) (l : List α) :
    x ≤ l.foldl max x ∧ (∀ y ∈ l, y ≤ l.foldl max x)
    ∧ (l.foldl max x = x ∨ l.foldl max x ∈ l) := by
  induction l generalizing x with
  | nil => simp
  | cons a t ih =>
    rw [List.foldl_cons]
    obtain ⟨h1, h2, h3⟩ := ih (max x a)
    refine ⟨le_trans (le_max_left x a) h1, ?_, ?_⟩
    · intro y hy
      rcases List.mem_cons.mp hy with rfl | hy'
      · exact le_trans (le_max_right x y) h1
      · exact h2 y hy'
    · rcases h3 with h | h
      · rcases max_choice x a with hc | hc
        · exact Or.inl (by rw [h, hc])
        · refine Or.inr ?_
          rw [h, hc]
          exact List.mem_cons_self a t
      · exact Or.inr (List.mem_cons_of_mem a h)

/-- C5: for every point field of size `N`, `render_pattern` chooses the
batched vertex-array path iff `N > 50000` (so `N = 50000` renders immediate
and `N = 50001` batched), and both paths issue their draw passes at exactly
the three point sizes 1.0, 2.0, 3.0. -/
theorem render_path_selection (n : ℕ) :
    (render_mode n = RenderMode.vertexArrays ↔ 50000 < n)
    ∧ render_mode 50000 = RenderMode.immediate
    ∧ render_mode 50001 = RenderMode.vertexArrays
    ∧ (render_passes n).map RenderPass.size = [1, 2, 3]
    ∧ (render_passes n).map RenderPass.mode = [render_mode n, render_mode n, render_mode n] := by
  refine ⟨?_, by decide, by decide, ?_, ?_⟩
  · unfold render_mode
    by_cases h : n > 50000 <;> simp [h]
  · unfold render_passes point_sizes
    by_cases h : n > 50000 <;> simp [h]
  · unfold render_passes render_mode point_sizes
    by_cases h : n > 50000 <;> simp [h]

/-- Witness for C5 at the boundary point count 50001. -/
theorem render_path_selection_witness :
    (render_mode 50001 = RenderMode.vertexArrays ↔ 50000 < 50001)
    ∧ render_mode 50000 = RenderMode.immediate
    ∧ render_mode 50001 = RenderMode.vertexArrays
    ∧ (render_passes 50001).map RenderPass.size = [1, 2, 3]
    ∧ (render_passes 50001).map RenderPass.mode
        = [render_mode 50001, render_mode 50001, render_mode 50001] :=
  render_path_selection 50001

/-- C7: a density whose generation yields 0 points contributes no
`BenchmarkRecord`, raises nothing, and the sweep continues with the next
density: `benchmark_pattern` behaves exactly as if that density were absent
from the sweep. -/
theorem zero_points_skips_density (ds₁ ds₂ : List DensityOutcome) :
    benchmark_pattern (ds₁ ++ DensityOutcome.zeroPoints :: ds₂)
      = benchmark_pattern (ds₁ ++ ds₂) := by
  induction ds₁ with
  | nil => rfl
  | cons o t ih => cases o <;> simp [benchmark_pattern, ih]

/-- Witness for C7 on a one-density sweep. -/
theorem zero_points_skips_density_witness :
    benchmark_pattern [DensityOutcome.zeroPoints] = benchmark_pattern [] :=
  zero_points_skips_density [] []

/-- C8: for every pattern with a non-empty record list, `get_summary` reports
the maximum FPS over all records and the maximum point count over all
records, as independent maxima (each attained by some record, not
necessarily the same one). -/
theorem summary_independent_maxima (rs : List BenchmarkRecord) (h : rs ≠ []) :
    ∃ f p, summary_entry rs = some (f, p)
      ∧ (∀ r ∈ rs, r.fps ≤ f) ∧ (∃ r ∈ rs, r.fps = f)
      ∧ (∀ r ∈ rs, r.points ≤ p) ∧ (∃ r ∈ rs, r.points = p) := by
  match rs with
  | [] => exact absurd rfl h
  | r :: rest =>
    refine ⟨_, _, rfl, ?_, ?_, ?_, ?_⟩
    · intro s hs
      obtain ⟨h1, h2, h3⟩ := foldl_max_spec r.fps (rest.map (fun s => s.fps))
      rcases List.mem_cons.mp hs with rfl | hs'
      · exact h1
      · exact h2 _ (List.mem_map_of_mem _ hs')
    · obtain ⟨h1, h2, h3⟩ := foldl_max_spec r.fps (rest.map (fun s => s.fps))
      rcases h3 with he | he
      · exact ⟨r, List.mem_cons_self _ _, he.symm⟩
      · obtain ⟨s, hs, hse⟩ := List.mem_map.mp he
        exact ⟨s, List.mem_cons_of_mem _ hs, hse⟩
    · intro s hs
      obtain ⟨h1, h2, h3⟩ := foldl_max_spec r.points (rest.map (fun s => s.points))
      rcases List.mem_cons.mp hs with rfl | hs'
      · exact h1
      · exact h2 _ (List.mem_map_of_mem _ hs')
    · obtain ⟨h1, h2, h3⟩ := foldl_max_spec r.points (rest.map (fun s => s.points))
      rcases h3 with he | he
      · exact ⟨r, List.mem_cons_self _ _, he.symm⟩
      · obtain ⟨s, hs, hse⟩ := List.mem_map.mp he
        exact ⟨s, List.mem_cons_of_mem _ hs, hse⟩

/-- Witness for C8: the spec's example pair of records
{density 1: fps 30, points 100} and {density 2: fps 45, points 5000}. -/
theorem summary_independent_maxima_witness :
    ∃ f p, summary_entry [⟨1, 100, 30, 10⟩, ⟨2, 5000, 45, 20⟩] = some (f, p)
      ∧ (∀ r ∈ [(⟨1, 100, 30, 10⟩ : BenchmarkRecord), ⟨2, 5000, 45, 20⟩], r.fps ≤ f)
      ∧ (∃ r ∈ [(⟨1, 100, 30, 10⟩ : BenchmarkRecord), ⟨2, 5000, 45, 20⟩], r.fps = f)
      ∧ (∀ r ∈ [(⟨1, 100, 30, 10⟩ : BenchmarkRecord), ⟨2, 5000, 45, 20⟩], r.points ≤ p)
      ∧ (∃ r ∈ [(⟨1, 100, 30, 10⟩ : BenchmarkRecord), ⟨2, 5000, 45, 20⟩], r.points = p) :=
  summary_independent_maxima [⟨1, 100, 30, 10⟩, ⟨2, 5000, 45, 20⟩] (by simp)

/-- C10: when `int(density * 50) = 0` (for non-negative densities this means
`density < 0.02`), `max_iter` is 0, the escape-count function returns 0 on
every sample, the append guard `iterations < max_iter` never holds, and
`MandelbrotSphere.generate` produces an empty point field. -/
theorem mandelbrot_zero_iter_empty (density : ℚ) (h : pyInt (density * 50) = 0) :
    MandelbrotSphere.max_iter density = 0
    ∧ (∀ c : ℂ, MandelbrotSphere.mandelbrot_iterations c (MandelbrotSphere.max_iter density) = 0)
    ∧ MandelbrotSphere.generate_points density = []
    ∧ MandelbrotSphere.generate_colors density = []
    ∧ (0 ≤ density → density < 1 / 50) := by
  have hmi : MandelbrotSphere.max_iter density = 0 := by
    rw [MandelbrotSphere.max_iter, pyIntNat, h]
    rfl
  refine ⟨hmi, ?_, ?_, ?_, ?_⟩
  · intro c
    rw [hmi]
    rfl
  · simp [MandelbrotSphere.generate_points, hmi, MandelbrotSphere.cell_point,
      List.filterMap_eq_nil_iff]
  · simp [MandelbrotSphere.generate_colors, hmi, MandelbrotSphere.cell_color,
      List.filterMap_eq_nil_iff]
  · intro hd
    rw [pyInt_of_nonneg (by positivity)] at h
    have hico := Int.floor_eq_zero_iff.mp h
    rw [Set.mem_Ico] at hico
    linarith [hico.2]

/-- Witness for C10 at density 0. -/
theorem mandelbrot_zero_iter_empty_witness :
    MandelbrotSphere.max_iter 0 = 0
    ∧ (∀ c : ℂ, MandelbrotSphere.mandelbrot_iterations c (MandelbrotSphere.max_iter 0) = 0)
    ∧ MandelbrotSphere.generate_points 0 = []
    ∧ MandelbrotSphere.generate_colors 0 = []
    ∧ ((0 : ℚ) ≤ 0 → (0 : ℚ) < 1 / 50) :=
  mandelbrot_zero_iter_empty 0 (by simp [pyInt])

/-- C4: `FibonacciSphere.generate(d)` produces exactly `int(d * 10000)` points
(with colors index-aligned, and an empty field, without failure, when that
count is 0), and `PrimeSpiral.generate(d)` produces exactly as many points as
there are primes strictly below `int(d * 20000)` — 25 points when the bound
is 100. -/
theorem generator_point_counts (density : ℚ) (tt : ℕ → ℝ) (hd : 0 ≤ density) :
    (((FibonacciSphere.generate density tt).points.length : ℤ) = pyInt (density * 10000))
    ∧ (FibonacciSphere.generate density tt).colors.length
        = (FibonacciSphere.generate density tt).points.length
    ∧ (pyInt (density * 10000) = 0 →
        (FibonacciSphere.generate density tt).points = []
          ∧ (FibonacciSphere.generate density tt).colors = [])
    ∧ (PrimeSpiral.generate density).points.length
        = ((List.range (PrimeSpiral.max_num density)).filter
            (fun n => decide (Nat.Prime n))).length
    ∧ (PrimeSpiral.max_num density = 100 →
        (PrimeSpiral.generate density).points.length = 25) := by
  have hprime : (PrimeSpiral.generate density).points.length
      = ((List.range (PrimeSpiral.max_num density)).filter
          (fun n => decide (Nat.Prime n))).length := by
    have : (PrimeSpiral.generate density).points.length = (PrimeSpiral.primes density).length := by
      simp [PrimeSpiral.generate]
    rw [this]
    exact PrimeSpiral.primes_length density
  refine ⟨?_, by simp [FibonacciSphere.generate], ?_, hprime, ?_⟩
  · have : (FibonacciSphere.generate density tt).points.length
        = FibonacciSphere.n_points density := by
      simp [FibonacciSphere.generate]
    rw [this, FibonacciSphere.n_points]
    exact pyIntNat_cast (mul_nonneg hd (by norm_num))
  · intro h0
    have hz : FibonacciSphere.n_points density = 0 := by
      rw [FibonacciSphere.n_points, pyIntNat, h0]
      rfl
    constructor <;> simp [FibonacciSphere.generate, hz]
  · intro h100
    rw [hprime, h100]
    decide

/-- Witness for C4 at density 1 (10000 Fibonacci points, primes below 20000). -/
theorem generator_point_counts_witness :
    (((FibonacciSphere.generate 1 (fun _ => 0)).points.length : ℤ) = pyInt ((1 : ℚ) * 10000))
    ∧ (FibonacciSphere.generate 1 (fun _ => 0)).colors.length
        = (FibonacciSphere.generate 1 (fun _ => 0)).points.length
    ∧ (pyInt ((1 : ℚ) * 10000) = 0 →
        (FibonacciSphere.generate 1 (fun _ => 0)).points = []
          ∧ (FibonacciSphere.generate 1 (fun _ => 0)).colors = [])
    ∧ (PrimeSpiral.generate 1).points.length
        = ((List.range (PrimeSpiral.max_num 1)).filter (fun n => decide (Nat.Prime n))).length
    ∧ (PrimeSpiral.max_num 1 = 100 → (PrimeSpiral.generate 1).points.length = 25) :=
  generator_point_counts 1 (fun _ => 0) zero_le_one

/-- The particle generator of lines 192-226 (the behaviour C1 claims, and
what spec 4.5 describes): exactly `int(d * 5000)` particles with
index-aligned points/colors/velocities/masses, every particle on the unit
sphere, every velocity component in `[-0.01, 0.01)` and every mass in
`[0.5, 2.0)`. At runtime this method is shadowed — see
`ParticleSystem.generate_shadowed` and `particle_generate_bug`. -/
theorem particle_generate_spec (density : ℚ) (u : ℕ → ℝ)
    (hd : 0 ≤ density) (hu : ∀ k, 0 ≤ u k ∧ u k < 1) :
    (((ParticleSystem.generate density u).points.length : ℤ) = pyInt (density * 5000))
    ∧ (ParticleSystem.generate density u).points.length = ParticleSystem.n_particles density
    ∧ (ParticleSystem.generate density u).colors.length = ParticleSystem.n_particles density
    ∧ (ParticleSystem.generate density u).velocities.length = ParticleSystem.n_particles density
    ∧ (ParticleSystem.generate density u).masses.length = ParticleSystem.n_particles density
    ∧ (∀ p ∈ (ParticleSystem.generate density u).points, norm3 p = 1)
    ∧ (∀ v ∈ (ParticleSystem.generate density u).velocities,
        (-0.01 ≤ v.x ∧ v.x < 0.01) ∧ (-0.01 ≤ v.y ∧ v.y < 0.01) ∧ (-0.01 ≤ v.z ∧ v.z < 0.01))
    ∧ (∀ m ∈ (ParticleSystem.generate density u).masses, 0.5 ≤ m ∧ m < 2) := by
  refine ⟨?_, by simp [ParticleSystem.generate], by simp [ParticleSystem.generate],
    by simp [ParticleSystem.generate], by simp [ParticleSystem.generate], ?_, ?_, ?_⟩
  · have : (ParticleSystem.generate density u).points.length
        = ParticleSystem.n_particles density := by
      simp [ParticleSystem.generate]
    rw [this, ParticleSystem.n_particles]
    exact pyIntNat_cast (mul_nonneg hd (by norm_num))
  · intro p hp
    simp [ParticleSystem.generate] at hp
    obtain ⟨i, hi, rfl⟩ := hp
    exact norm3_spherical (ParticleSystem.theta u i) (ParticleSystem.phi u i)
  · intro v hv
    simp [ParticleSystem.generate] at hv
    obtain ⟨i, hi, rfl⟩ := hv
    exact ⟨pyUniform_mem (by norm_num) (hu _).1 (hu _).2,
      pyUniform_mem (by norm_num) (hu _).1 (hu _).2,
      pyUniform_mem (by norm_num) (hu _).1 (hu _).2⟩
  · intro m hm
    simp [ParticleSystem.generate] at hm
    obtain ⟨i, hi, rfl⟩ := hm
    exact pyUniform_mem (by norm_num) (hu _).1 (hu _).2

/-- Concrete instance of `particle_generate_spec` at density 1 (5000
particles), with the constant-zero random stream. -/
theorem particle_generate_spec_witness :
    (((ParticleSystem.generate 1 (fun _ => 0)).points.length : ℤ) = pyInt ((1 : ℚ) * 5000))
    ∧ (ParticleSystem.generate 1 (fun _ => 0)).points.length = ParticleSystem.n_particles 1
    ∧ (ParticleSystem.generate 1 (fun _ => 0)).colors.length = ParticleSystem.n_particles 1
    ∧ (ParticleSystem.generate 1 (fun _ => 0)).velocities.length = ParticleSystem.n_particles 1
    ∧ (ParticleSystem.generate 1 (fun _ => 0)).masses.length = ParticleSystem.n_particles 1
    ∧ (∀ p ∈ (ParticleSystem.generate 1 (fun _ => 0)).points, norm3 p = 1)
    ∧ (∀ v ∈ (ParticleSystem.generate 1 (fun _ => 0)).velocities,
        (-0.01 ≤ v.x ∧ v.x < 0.01) ∧ (-0.01 ≤ v.y ∧ v.y < 0.01) ∧ (-0.01 ≤ v.z ∧ v.z < 0.01))
    ∧ (∀ m ∈ (ParticleSystem.generate 1 (fun _ => 0)).masses, 0.5 ≤ m ∧ m < 2) :=
  particle_generate_spec 1 (fun _ => 0) zero_le_one
    (fun _ => ⟨le_refl 0, zero_lt_one⟩)

/-- C6: one call to `ParticleSystem.update_physics` on a non-empty particle
field leaves the particle count and every mass unchanged, and every particle
whose post-integration position has nonzero magnitude is re-projected onto
the unit sphere. -/
theorem update_physics_spec (s : ParticleState) (dt : ℝ)
    (hne : s.points ≠ [])
    (hv : s.velocities.length = s.points.length)
    (hm : s.masses.length = s.points.length) :
    (ParticleSystem.update_physics s dt).points.length = s.points.length
    ∧ (ParticleSystem.update_physics s dt).velocities.length = s.points.length
    ∧ (ParticleSystem.update_physics s dt).masses = s.masses
    ∧ (ParticleSystem.update_physics s dt).colors = s.colors
    ∧ ∀ i, i < s.points.length → norm3 (ParticleSystem.raw_at s dt i) ≠ 0 →
        norm3 ((ParticleSystem.update_physics s dt).points.getD i ⟨0, 0, 0⟩) = 1 := by
  refine ⟨by simp [ParticleSystem.update_physics], by simp [ParticleSystem.update_physics],
    rfl, rfl, ?_⟩
  intro i hi hraw
  have hget : (ParticleSystem.update_physics s dt).points.getD i ⟨0, 0, 0⟩
      = ParticleSystem.constrained (ParticleSystem.raw_at s dt i) := by
    simp [ParticleSystem.update_physics, List.getD_eq_getElem?_getD, List.getElem?_map,
      List.getElem?_range hi]
  rw [hget]
  simp only [ParticleSystem.constrained]
  have h0 : 0 < norm3 (ParticleSystem.raw_at s dt i) :=
    lt_of_le_of_ne (Real.sqrt_nonneg _) (Ne.symm hraw)
  rw [if_pos h0]
  exact norm3_scaled _ hraw

/-- Witness for C6 on a one-particle field. -/
theorem update_physics_spec_witness :
    (ParticleSystem.update_physics ⟨[⟨1, 0, 0⟩], [⟨1, 1, 1, 1⟩], [⟨0, 0, 0⟩], [1]⟩ 0).points.length
        = (([⟨1, 0, 0⟩] : List Vec3)).length
    ∧ (ParticleSystem.update_physics ⟨[⟨1, 0, 0⟩], [⟨1, 1, 1, 1⟩], [⟨0, 0, 0⟩], [1]⟩
        0).velocities.length = (([⟨1, 0, 0⟩] : List Vec3)).length
    ∧ (ParticleSystem.update_physics ⟨[⟨1, 0, 0⟩], [⟨1, 1, 1, 1⟩], [⟨0, 0, 0⟩], [1]⟩ 0).masses
        = [1]
    ∧ (ParticleSystem.update_physics ⟨[⟨1, 0, 0⟩], [⟨1, 1, 1, 1⟩], [⟨0, 0, 0⟩], [1]⟩ 0).colors
        = [⟨1, 1, 1, 1⟩]
    ∧ ∀ i, i < (([⟨1, 0, 0⟩] : List Vec3)).length →
        norm3 (ParticleSystem.raw_at ⟨[⟨1, 0, 0⟩], [⟨1, 1, 1, 1⟩], [⟨0, 0, 0⟩], [1]⟩ 0 i) ≠ 0 →
        norm3 ((ParticleSystem.update_physics ⟨[⟨1, 0, 0⟩], [⟨1, 1, 1, 1⟩], [⟨0, 0, 0⟩], [1]⟩
          0).points.getD i ⟨0, 0, 0⟩) = 1 :=
  update_physics_spec ⟨[⟨1, 0, 0⟩], [⟨1, 1, 1, 1⟩], [⟨0, 0, 0⟩], [1]⟩ 0
    (by simp) rfl rfl

/-- Helper: a pattern whose sweep reaches a quit event stops at that event
with exactly the records of the completed prefix, returning the quit state. -/
theorem benchmark_pattern_quit (ds₁ ds₂ : List DensityOutcome)
    (h : (benchmark_pattern ds₁).2 = RunState.finished) :
    benchmark_pattern (ds₁ ++ DensityOutcome.quitRequested :: ds₂)
      = ((benchmark_pattern ds₁).1, RunState.quit) := by
  induction ds₁ with
  | nil => rfl
  | cons o t ih =>
    cases o with
    | zeroPoints =>
        simp only [benchmark_pattern, List.cons_append] at h ⊢
        exact ih h
    | quitRequested => simp [benchmark_pattern] at h
    | completed r =>
        simp only [benchmark_pattern, List.cons_append, List.append_eq] at h ⊢
        rw [ih h]
    | raised => simp [benchmark_pattern] at h

/-- Helper: a pattern whose sweep reaches an exception stops at that event
with the records of the completed prefix, in the exception state. -/
theorem benchmark_pattern_raised (ds₁ ds₂ : List DensityOutcome)
    (h : (benchmark_pattern ds₁).2 = RunState.finished) :
    benchmark_pattern (ds₁ ++ DensityOutcome.raised :: ds₂)
      = ((benchmark_pattern ds₁).1, RunState.exc) := by
  induction ds₁ with
  | nil => rfl
  | cons o t ih =>
    cases o with
    | zeroPoints =>
        simp only [benchmark_pattern, List.cons_append] at h ⊢
        exact ih h
    | quitRequested => simp [benchmark_pattern] at h
    | completed r =>
        simp only [benchmark_pattern, List.cons_append, List.append_eq] at h ⊢
        rw [ih h]
    | raised => simp [benchmark_pattern] at h

/-- Helper: the pattern loop of `run_benchmark` stops at the first pattern
that does not finish normally, keeping all records accumulated so far and
ignoring every remaining pattern. -/
theorem run_patterns_stops (ps₁ : List (List DensityOutcome)) (P : List DensityOutcome)
    (ps₂ : List (List DensityOutcome)) (st : RunState)
    (h₁ : ∀ p ∈ ps₁, (benchmark_pattern p).2 = RunState.finished)
    (hP : (benchmark_pattern P).2 = st) (hst : st ≠ RunState.finished) :
    run_patterns (ps₁ ++ P :: ps₂)
      = ((ps₁.map (fun p => (benchmark_pattern p).1)).flatten ++ (benchmark_pattern P).1, st) := by
  induction ps₁ with
  | nil =>
    cases st with
    | finished => exact absurd rfl hst
    | quit =>
        simp only [List.nil_append, List.map_nil, List.flatten_nil]
        unfold run_patterns
        rw [hP]
    | exc =>
        simp only [List.nil_append, List.map_nil, List.flatten_nil]
        unfold run_patterns
        rw [hP]
  | cons q t ih =>
    have hqf := h₁ q (List.mem_cons_self q t)
    have ih' := ih (fun p hp => h₁ p (List.mem_cons_of_mem q hp))
    simp only [List.cons_append]
    unfold run_patterns
    rw [hqf, ih']
    simp [List.append_assoc]

/-- C9: a quit signal during any pattern's render loop aborts the entire
remaining sweep (the outcomes after the quit and all later patterns do not
influence the result), the records collected before the quit are still
serialized, and the process exits with status 0. -/
theorem quit_aborts_sweep (ps₁ : List (List DensityOutcome)) (ds₁ ds₂ : List DensityOutcome)
    (ps₂ : List (List DensityOutcome))
    (h₁ : ∀ p ∈ ps₁, (benchmark_pattern p).2 = RunState.finished)
    (h₂ : (benchmark_pattern ds₁).2 = RunState.finished) :
    run_benchmark (ps₁ ++ (ds₁ ++ DensityOutcome.quitRequested :: ds₂) :: ps₂)
      = (some ((ps₁.map (fun p => (benchmark_pattern p).1)).flatten ++ (benchmark_pattern ds₁).1),
         true)
    ∧ exit_code (run_benchmark
        (ps₁ ++ (ds₁ ++ DensityOutcome.quitRequested :: ds₂) :: ps₂)).2 = 0 := by
  have hbp := benchmark_pattern_quit ds₁ ds₂ h₂
  have hrp := run_patterns_stops ps₁ _ ps₂ RunState.quit h₁ (by rw [hbp]) (by simp)
  constructor <;> simp [run_benchmark, hrp, hbp, exit_code]

/-- Witness for C9: a single pattern quit at its first density. -/
theorem quit_aborts_sweep_witness :
    run_benchmark [[DensityOutcome.quitRequested]] = (some [], true)
    ∧ exit_code (run_benchmark [[DensityOutcome.quitRequested]]).2 = 0 :=
  quit_aborts_sweep [] [] [] [] (by simp) rfl

/-- C3 (amended): an uncaught exception during the run is caught at the top
level and converted to a non-zero process exit, but the records collected
before the exception are NOT written: the save is skipped and no result file
is produced. -/
theorem exception_exit_no_save (ps₁ : List (List DensityOutcome)) (ds₁ ds₂ : List DensityOutcome)
    (ps₂ : List (List DensityOutcome))
    (h₁ : ∀ p ∈ ps₁, (benchmark_pattern p).2 = RunState.finished)
    (h₂ : (benchmark_pattern ds₁).2 = RunState.finished) :
    run_benchmark (ps₁ ++ (ds₁ ++ DensityOutcome.raised :: ds₂) :: ps₂) = (none, false)
    ∧ exit_code (run_benchmark
        (ps₁ ++ (ds₁ ++ DensityOutcome.raised :: ds₂) :: ps₂)).2 = 1 := by
  have hbp := benchmark_pattern_raised ds₁ ds₂ h₂
  have hrp := run_patterns_stops ps₁ _ ps₂ RunState.exc h₁ (by rw [hbp]) (by simp)
  constructor <;> simp [run_benchmark, hrp, exit_code]

/-- Witness for C3's amended theorem: one completed record, then an
exception. -/
theorem exception_exit_no_save_witness :
    run_benchmark [[DensityOutcome.completed ⟨1, 100, 30, 10⟩, DensityOutcome.raised]]
      = (none, false)
    ∧ exit_code (run_benchmark
        [[DensityOutcome.completed ⟨1, 100, 30, 10⟩, DensityOutcome.raised]]).2 = 1 :=
  exception_exit_no_save [] [DensityOutcome.completed ⟨1, 100, 30, 10⟩] [] []
    (by simp) rfl

/-- C3 counterexample: a run that collects the record ⟨1, 100, 30, 10⟩ and
then hits an exception exits non-zero — but the result-file content is
`none`: the collected record is discarded, not written, refuting the claim
that partial results are still flushed to the result file. -/
theorem exception_discards_records_counterexample :
    benchmark_pattern [DensityOutcome.completed ⟨1, 100, 30, 10⟩, DensityOutcome.raised]
      = ([⟨1, 100, 30, 10⟩], RunState.exc)
    ∧ run_benchmark [[DensityOutcome.completed ⟨1, 100, 30, 10⟩, DensityOutcome.raised]]
      = (none, false)
    ∧ (run_benchmark [[DensityOutcome.completed ⟨1, 100, 30, 10⟩,
        DensityOutcome.raised]]).1 ≠ some [⟨1, 100, 30, 10⟩]
    ∧ exit_code (run_benchmark [[DensityOutcome.completed ⟨1, 100, 30, 10⟩,
        DensityOutcome.raised]]).2 ≠ 0 := by
  refine ⟨rfl, rfl, by decide, by decide⟩

/-- Helper: every point emitted by the Lorenz append guard is normalized. -/
theorem emit_point_norm {a i : ℕ} {p0 p : Vec3}
    (h : LorenzAttractor.emit_point a i p0 = some p) : norm3 p = 1 := by
  simp only [LorenzAttractor.emit_point] at h
  split at h
  · rename_i hm
    injection h with h'
    subst h'
    exact norm3_scaled _ hm.ne'
  · exact absurd h (by simp)

/-- C2 (amended): every position appended by `FibonacciSphere.generate`,
`LorenzAttractor.generate` and `ParticleSystem.generate` has Euclidean norm
within 1e-6 of 1 (it is exactly 1 in real arithmetic). `PrimeSpiral.generate`
is excluded: its deterministic x/y offsets push points off the unit sphere
beyond that tolerance (see the counterexample). -/
theorem generator_unit_norms (density : ℚ) (tt u : ℕ → ℝ) :
    (∀ p ∈ (FibonacciSphere.generate density tt).points, |norm3 p - 1| ≤ 1e-6)
    ∧ (∀ p ∈ (LorenzAttractor.generate density).points, |norm3 p - 1| ≤ 1e-6)
    ∧ (∀ p ∈ (ParticleSystem.generate density u).points, |norm3 p - 1| ≤ 1e-6) := by
  have habs : ∀ x : ℝ, x = 1 → |x - 1| ≤ 1e-6 := by
    intro x hx
    rw [hx]
    norm_num
  refine ⟨?_, ?_, ?_⟩
  · intro p hp
    simp [FibonacciSphere.generate] at hp
    obtain ⟨i, hi, rfl⟩ := hp
    exact habs _ (norm3_spherical _ _)
  · intro p hp
    simp [LorenzAttractor.generate, LorenzAttractor.attractor_points] at hp
    obtain ⟨a, ha, i, hi, hsome⟩ := hp
    exact habs _ (emit_point_norm hsome)
  · intro p hp
    simp [ParticleSystem.generate] at hp
    obtain ⟨i, hi, rfl⟩ := hp
    exact habs _ (norm3_spherical (ParticleSystem.theta u i) (ParticleSystem.phi u i))

/-- Witness for C2's amended theorem at density 1 with zero streams. -/
theorem generator_unit_norms_witness :
    (∀ p ∈ (FibonacciSphere.generate 1 (fun _ => 0)).points, |norm3 p - 1| ≤ 1e-6)
    ∧ (∀ p ∈ (LorenzAttractor.generate 1).points, |norm3 p - 1| ≤ 1e-6)
    ∧ (∀ p ∈ (ParticleSystem.generate 1 (fun _ => 0)).points, |norm3 p - 1| ≤ 1e-6) :=
  generator_unit_norms 1 (fun _ => 0) (fun _ => 0)

/-- Helper: the benchmark's trial-division filter equals the primality
filter over the same range. -/
theorem primes_eq_prime_filter (density : ℚ) :
    PrimeSpiral.primes density
      = (List.range' 2 (PrimeSpiral.max_num density - 2)).filter
          (fun n => decide (Nat.Prime n)) := by
  rw [PrimeSpiral.primes]
  apply List.filter_congr
  intro x hx
  rw [List.mem_range'_1] at hx
  exact Bool.eq_iff_iff.mpr (by rw [PrimeSpiral.trial_division_iff hx.1, decide_eq_true_iff])

/-- C2 counterexample: at density 3/20000 the prime bound is 3, the only
prime is 2, and PrimeSpiral's single point is
(0.1·sin(1/500), 0.1·cos(7/5000), 1), whose norm exceeds 1.001; the claimed
1e-6 tolerance fails for `PrimeSpiral.generate`. -/
theorem prime_spiral_norm_counterexample :
    ¬ (∀ p ∈ (PrimeSpiral.generate (3 / 20000)).points, |norm3 p - 1| ≤ 1e-6) := by
  intro hall
  have hmax : PrimeSpiral.max_num (3 / 20000) = 3 := by
    have h3 : pyInt ((3 : ℚ) / 20000 * 20000) = 3 := by norm_num [pyInt]
    rw [PrimeSpiral.max_num, pyIntNat, h3]
    rfl
  have hprimes : PrimeSpiral.primes (3 / 20000) = [2] := by
    rw [primes_eq_prime_filter, hmax]
    decide
  have hpts : (PrimeSpiral.generate (3 / 20000)).points = [PrimeSpiral.point 3 1 0 2] := by
    simp [PrimeSpiral.generate, hprimes, hmax]
  have hp := hall (PrimeSpiral.point 3 1 0 2) (by rw [hpts]; exact List.mem_singleton_self _)
  have hP : PrimeSpiral.point 3 1 0 2
      = ⟨Real.sin (1 / 500) * 0.1, Real.cos (7 / 5000) * 0.1, 1⟩ := by
    simp only [PrimeSpiral.point]
    norm_num [Real.arccos_one]
  have hcos : (1 : ℝ) / 2 ≤ Real.cos (7 / 5000) := by
    have h3 := Real.pi_gt_three
    have hmono : Real.cos (Real.pi / 3) ≤ Real.cos (7 / 5000) :=
      Real.cos_le_cos_of_nonneg_of_le_pi (by norm_num) (by linarith) (by linarith)
    rwa [Real.cos_pi_div_three] at hmono
  have hS : (1.0025 : ℝ) ≤ (Real.sin (1 / 500) * 0.1) ^ 2 + (Real.cos (7 / 5000) * 0.1) ^ 2
      + (1 : ℝ) ^ 2 := by
    nlinarith [sq_nonneg (Real.sin (1 / 500) * 0.1), hcos]
  have hlt : (1.001 : ℝ) < norm3 (PrimeSpiral.point 3 1 0 2) := by
    rw [hP]
    show (1.001 : ℝ) < Real.sqrt ((Real.sin (1 / 500) * 0.1) ^ 2
      + (Real.cos (7 / 5000) * 0.1) ^ 2 + (1 : ℝ) ^ 2)
    rw [Real.lt_sqrt (by norm_num)]
    nlinarith [hS]
  have habs := le_trans (le_abs_self _) hp
  linarith

/-- C1 (code bug): the claim describes the particle generator of lines
192-226 (as does spec 4.5), but the mis-pasted Lorenz fragment at lines
283-309 shadows `ParticleSystem.generate`: at density 1 the runtime method
yields 0 points and 0 colors instead of the claimed `int(1 * 5000) = 5000`
particles (which the shadowed lines 192-226 would produce, see
`particle_generate_spec`). -/
theorem particle_generate_bug :
    (ParticleSystem.generate_shadowed 1).points.length = 0
    ∧ (ParticleSystem.generate_shadowed 1).colors.length = 0
    ∧ (∀ u : ℕ → ℝ, (ParticleSystem.generate 1 u).points.length = 5000)
    ∧ pyInt ((1 : ℚ) * 5000) ≠ 0 := by
  refine ⟨rfl, rfl, ?_, by norm_num [pyInt]⟩
  intro u
  have : (ParticleSystem.generate 1 u).points.length = ParticleSystem.n_particles 1 := by
    simp [ParticleSystem.generate]
  rw [this]
  have h5 : pyInt ((1 : ℚ) * 5000) = 5000 := by norm_num [pyInt]
  rw [ParticleSystem.n_particles, pyIntNat, h5]
  rfl
